import Mathlib

/-!
Verification development for the phishing-detection service backend.

We give a shallow embedding of the pure decision logic of the backend:
URL lexical feature extraction (app/utils/feature_extraction.py,
URLFeatureExtractor), the model-loader prediction pipeline
(app/utils/load_models.py, ModelLoader), the LLM analyzer's result
post-processing and the combined ML+LLM confidence policy
(app/utils/llm_analyzer.py), the prediction endpoints' exception
boundary (app/routers/predict.py and app/routers/llm_predict.py), and
the relational schema (app/db.py).

Machine floats of the Python code are modelled as rationals; Python
dictionaries with string keys as insertion-ordered association lists;
fallible library calls (scikit-learn transform/predict, numpy max on an
empty array, the LLM chain) as functions returning Except String.
-/

namespace Phish

/-! ## CPython urlparse model

`urllib.parse.urlsplit` (as called by `urlparse` for URLs without
parameters), modelled from CPython: leading C0-control/space characters
are stripped, tab/CR/LF are removed, an optional scheme
([a-zA-Z][a-zA-Z0-9+.-]* before the first ':') is split off and
lowercased, a '//'-introduced netloc runs to the first of '/', '?', '#',
a ValueError ("Invalid IPv6 URL") is raised when the netloc contains
'[' without ']' or vice versa, then the fragment is split at the first
'#' and the query at the first '?'. -/

structure ParsedURL where
  scheme : String
  netloc : String
  path : String
  query : String
  fragment : String
  deriving Repr, DecidableEq

/-- Characters allowed in a URL scheme after the first (CPython scheme_chars). -/
def schemeChar (c : Char) : Bool :=
  c.isAlpha || c.isDigit || c = '+' || c = '-' || c = '.'

/-- Split a character list at the first occurrence of a character
satisfying p; the separator is dropped.  If no such character occurs,
the second component is empty. -/
def splitAtFirst (p : Char → Bool) : List Char → List Char × List Char
  | [] => ([], [])
  | c :: rest =>
    if p c then ([], rest)
    else
      let r := splitAtFirst p rest
      (c :: r.1, r.2)

/-- Python str.split with a single-character separator: "".split(sep)
is [''] and empty segments are kept. -/
def splitOnChar (sep : Char) : List Char → List (List Char)
  | [] => [[]]
  | c :: rest =>
    let r := splitOnChar sep rest
    if c = sep then [] :: r
    else
      match r with
      | h :: t => (c :: h) :: t
      | [] => [[c]]

/-- Lowercase a character list (Python str.lower on ASCII). -/
def lowerChars (cs : List Char) : List Char := cs.map Char.toLower

/-- Python str.lower on ASCII strings. -/
def strLower (s : String) : String := String.mk (lowerChars s.data)

/-- Python str.upper on ASCII strings. -/
def strUpper (s : String) : String := String.mk (s.data.map Char.toUpper)

/-- Index of the last occurrence of c in p (Python str.rfind). -/
def rfindIdx (c : Char) (p : List Char) : Option Nat :=
  match p.reverse.findIdx? (· = c) with
  | some j => some (p.length - 1 - j)
  | none => none

/-- CPython urllib.parse._splitparams on the path component: split the
';params' suffix of the last path segment.  Only called when ';' is in
the path. -/
def _splitparams (p : List Char) : List Char × List Char :=
  if p.contains '/' then
    let i0 := (rfindIdx '/' p).getD 0
    match (p.drop i0).findIdx? (· = ';') with
    | some j => (p.take (i0 + j), p.drop (i0 + j + 1))
    | none => (p, [])
  else
    match p.findIdx? (· = ';') with
    | some j => (p.take j, p.drop (j + 1))
    | none => (p, [])

/-- urlsplit on a character list; errors model ValueError. -/
def urlparseChars (input : List Char) : Except String ParsedURL :=
  -- WHATWG pre-processing: lstrip C0 control and space, remove tab/CR/LF
  let cs := (input.dropWhile (fun c => c.toNat ≤ 32)).filter
    (fun c => !(c = '\t' || c = '\r' || c = '\n'))
  -- scheme
  let sr : List Char × List Char :=
    match cs.findIdx? (· = ':') with
    | some i =>
      if 0 < i && (cs.take i).all schemeChar &&
          (match cs.head? with | some c => c.isAlpha | none => false) then
        (lowerChars (cs.take i), cs.drop (i + 1))
      else ([], cs)
    | none => ([], cs)
  let scheme := sr.1
  let rest := sr.2
  -- netloc
  let nr : List Char × List Char :=
    if rest.take 2 = ['/', '/'] then
      let after := rest.drop 2
      let nl := after.takeWhile (fun c => !(c = '/' || c = '?' || c = '#'))
      (nl, after.drop nl.length)
    else ([], rest)
  let netloc := nr.1
  if (netloc.contains '[' && !(netloc.contains ']')) ||
     (netloc.contains ']' && !(netloc.contains '[')) then
    .error "Invalid IPv6 URL"
  else
    let fr : List Char × List Char :=
      if nr.2.contains '#' then splitAtFirst (· = '#') nr.2 else (nr.2, [])
    let qr : List Char × List Char :=
      if fr.1.contains '?' then splitAtFirst (· = '?') fr.1 else (fr.1, [])
    -- urlparse (vs urlsplit) also splits ';params' off the path
    let path := if qr.1.contains ';' then (_splitparams qr.1).1 else qr.1
    .ok ⟨String.mk scheme, String.mk netloc, String.mk path,
         String.mk qr.2, String.mk fr.2⟩

/-- urllib.parse.urlparse as used by the feature extractor. -/
def urlparse (url : String) : Except String ParsedURL :=
  urlparseChars url.data

/-! ## URLFeatureExtractor (app/utils/feature_extraction.py)

Feature dictionaries are association lists in insertion order; values
are rationals standing for the Python floats/ints. -/

/-- Whether `needle` occurs at the start of `hay` (helper for the Python
substring test). -/
def headMatch : List Char → List Char → Bool
  | [], _ => true
  | _ :: _, [] => false
  | a :: as, b :: bs => a = b && headMatch as bs

/-- Python `needle in hay` substring containment. -/
def hasSub (needle : List Char) : List Char → Bool
  | [] => needle.isEmpty
  | c :: rest => headMatch needle (c :: rest) || hasSub needle rest

/-- Python `hay.endswith(needle)`. -/
def endsWith (needle hay : List Char) : Bool :=
  headMatch needle.reverse hay.reverse

namespace URLFeatureExtractor

def suspicious_keywords : List (List Char) :=
  (["secure", "account", "update", "verify", "confirm", "login",
    "bank", "paypal", "amazon", "apple", "microsoft", "google",
    "facebook", "twitter", "instagram", "linkedin", "netflix",
    "suspicious", "phishing", "scam", "fraud", "fake"]).map String.data

def suspicious_tlds : List (List Char) :=
  ([".tk", ".ml", ".ga", ".cf", ".click", ".download", ".review"]).map String.data

def special_chars : List Char := "!@#$%^&*()+=[]\x7b\x7d|;:,.<>?".data

def _extract_basic_features (url : List Char) : List (String × ℚ) :=
  [("url_length", (url.length : ℚ)),
   ("num_dots", (url.count '.' : ℚ)),
   ("num_hyphens", (url.count '-' : ℚ)),
   ("num_underscores", (url.count '_' : ℚ)),
   ("num_slashes", (url.count '/' : ℚ)),
   ("num_digits", (url.countP Char.isDigit : ℚ)),
   ("num_special_chars", (url.countP (special_chars.contains ·) : ℚ))]

/-- The regex `^\d+\.\d+\.\d+\.\d+$` of has_ip: exactly four non-empty
all-digit dot-separated groups. -/
def looksLikeIP (domain : List Char) : Bool :=
  let parts := splitOnChar '.' domain
  parts.length = 4 && parts.all (fun p => !p.isEmpty && p.all Char.isDigit)

def _extract_domain_features (url : List Char) : List (String × ℚ) :=
  match urlparseChars url with
  | .ok parsed =>
    let domain := lowerChars parsed.netloc.data
    let labels := splitOnChar '.' domain
    let tld := if domain.contains '.' then labels.getLast! else []
    [("domain_length", (domain.length : ℚ)),
     ("num_subdomains", (labels.length : ℚ) - 2),
     ("has_ip", if looksLikeIP domain then 1 else 0),
     ("has_https", if parsed.scheme = "https" then 1 else 0),
     ("tld_length", (tld.length : ℚ)),
     ("suspicious_tld",
        if suspicious_tlds.any (fun s => endsWith s tld) then 1 else 0)]
  | .error _ =>
    [("domain_length", 0), ("num_subdomains", 0), ("has_ip", 0),
     ("has_https", 0), ("tld_length", 0), ("suspicious_tld", 0)]

def _extract_path_features (url : List Char) : List (String × ℚ) :=
  match urlparseChars url with
  | .ok parsed =>
    let path := parsed.path.data
    let segs := splitOnChar '/' path
    [("path_length", (path.length : ℚ)),
     ("num_directories", ((segs.filter (fun d => !d.isEmpty)).length : ℚ)),
     ("has_file_extension", if segs.getLast!.contains '.' then 1 else 0),
     ("suspicious_path_keywords",
        ((suspicious_keywords.filter (fun k => hasSub k (lowerChars path))).length : ℚ))]
  | .error _ =>
    [("path_length", 0), ("num_directories", 0),
     ("has_file_extension", 0), ("suspicious_path_keywords", 0)]

def _extract_query_features (url : List Char) : List (String × ℚ) :=
  match urlparseChars url with
  | .ok parsed =>
    let query := parsed.query.data
    [("query_length", (query.length : ℚ)),
     ("num_params",
        if !query.isEmpty then ((splitOnChar '&' query).length : ℚ) else 0),
     ("suspicious_query_keywords",
        ((suspicious_keywords.filter (fun k => hasSub k (lowerChars query))).length : ℚ))]
  | .error _ =>
    [("query_length", 0), ("num_params", 0), ("suspicious_query_keywords", 0)]

/-- The regex search `(.)\1{2,}`: three or more equal consecutive chars. -/
def hasTriple : List Char → Bool
  | a :: b :: c :: rest => (a = b && b = c) || hasTriple (b :: c :: rest)
  | _ => false

def shorteners : List (List Char) :=
  (["bit.ly", "tinyurl", "goo.gl", "t.co", "ow.ly", "short.link"]).map String.data

def _extract_suspicious_features (url : List Char) : List (String × ℚ) :=
  let url_lower := lowerChars url
  [("suspicious_keywords",
      ((suspicious_keywords.filter (fun k => hasSub k url_lower)).length : ℚ)),
   ("is_shortened",
      if shorteners.any (fun s => hasSub s url_lower) then 1 else 0),
   ("has_repeated_chars", if hasTriple url then 1 else 0),
   ("has_mixed_case",
      if url.any Char.isLower && url.any Char.isUpper then 1 else 0)]

/-- URLFeatureExtractor.extract_features: the five sections update a
fresh dict in order; the key sets are pairwise disjoint, so the dict is
the concatenation of the sections. -/
def extract_features (url : String) : List (String × ℚ) :=
  _extract_basic_features url.data ++
  _extract_domain_features url.data ++
  _extract_path_features url.data ++
  _extract_query_features url.data ++
  _extract_suspicious_features url.data

end URLFeatureExtractor

/-! ## ModelLoader (app/utils/load_models.py)

The scikit-learn artifacts are abstracted: a classifier is a pair of
fallible functions (predict, predict_proba), a scaler a fallible
transform; `Except.error` models a raised exception.  The NLP and
hybrid feature extractors depend on external resources (NLTK, WHOIS,
HTTP fetches), so they appear as fallible oracle functions in the
loader state; the URL extractor is the pure function embedded above. -/

/-- numpy.max over a 1-d array: raises on an empty array. -/
def npMax (l : List ℚ) : Except String ℚ :=
  match l with
  | [] => .error "zero-size array to reduction operation maximum"
  | a :: rest => .ok (rest.foldl max a)

/-- Python dict.get(key, default) on an insertion-ordered dict. -/
def dictGet (d : List (String × ℚ)) (k : String) (dflt : ℚ) : ℚ :=
  match d.find? (fun p => p.1 == k) with
  | some p => p.2
  | none => dflt

/-- dict.values() in insertion order. -/
def dictValues (d : List (String × ℚ)) : List ℚ := d.map Prod.snd

structure Classifier where
  predict : List ℚ → Except String ℤ
  predict_proba : List ℚ → Except String (List ℚ)

structure Scaler where
  transform : List ℚ → Except String (List ℚ)

structure ModelLoader where
  url_model : Option Classifier
  url_scaler : Option Scaler
  url_feature_names : Option (List String)
  text_model : Option Classifier
  text_scaler : Option Scaler
  text_feature_names : Option (List String)
  hybrid_model : Option Classifier
  hybrid_scaler : Option Scaler
  hybrid_feature_names : Option (List String)
  /-- NLPFeatureExtractor.extract_features: fallible oracle. -/
  nlp_extract : String → Except String (List (String × ℚ))
  /-- HybridFeatureExtractor.extract_features: fallible oracle. -/
  hybrid_extract : String → Option String → Except String (List (String × ℚ))

namespace ModelLoader

/-- Order the raw feature dict to the stored training-time schema.
`if self.url_feature_names:` is Python truthiness: None and the empty
list both fall back to dict order. -/
def orderFeatures (names : Option (List String))
    (raw : List (String × ℚ)) : List ℚ :=
  match names with
  | some ns => if ns.isEmpty then dictValues raw
               else ns.map (fun n => dictGet raw n 0)
  | none => dictValues raw

/-- The body of the try-block shared by the three predictors, after
feature extraction: scale, predict, predict_proba, take the max
probability, map the class to a label. -/
def pipeline (scaler : Option Scaler) (model : Classifier)
    (ordered : List ℚ) : Except String (String × ℚ) :=
  match (match scaler with
         | some s => s.transform ordered
         | none => .ok ordered) with
  | .error e => .error e
  | .ok fv =>
    match model.predict fv with
    | .error e => .error e
    | .ok pred =>
      match model.predict_proba fv with
      | .error e => .error e
      | .ok proba =>
        match npMax proba with
        | .error e => .error e
        | .ok conf =>
          .ok ((if pred = 1 then "Phishing" else "Legitimate"), conf)

/-- The whole try-block of predict_url: URL feature extraction (pure),
ordering, then the fallible pipeline. -/
def url_step (L : ModelLoader) (m : Classifier) (url : String) :
    Except String (String × ℚ) :=
  pipeline L.url_scaler m
    (orderFeatures L.url_feature_names (URLFeatureExtractor.extract_features url))

/-- ModelLoader.predict_url. -/
def predict_url (L : ModelLoader) (url : String) : String × ℚ :=
  match L.url_model with
  | none => ("Model not available", 0)
  | some m =>
    match url_step L m url with
    | .ok out => out
    | .error _ => ("Error", 0)

/-- The whole try-block of predict_text: fallible NLP feature
extraction, ordering, then the pipeline. -/
def text_step (L : ModelLoader) (m : Classifier) (text : String) :
    Except String (String × ℚ) :=
  match L.nlp_extract text with
  | .error e => .error e
  | .ok raw => pipeline L.text_scaler m (orderFeatures L.text_feature_names raw)

/-- ModelLoader.predict_text. -/
def predict_text (L : ModelLoader) (text : String) : String × ℚ :=
  match L.text_model with
  | none => ("Model not available", 0)
  | some m =>
    match text_step L m text with
    | .ok out => out
    | .error _ => ("Error", 0)

/-- The whole try-block of predict_hybrid. -/
def hybrid_step (L : ModelLoader) (m : Classifier) (url : String)
    (text : Option String) : Except String (String × ℚ) :=
  match L.hybrid_extract url text with
  | .error e => .error e
  | .ok raw =>
    pipeline L.hybrid_scaler m (orderFeatures L.hybrid_feature_names raw)

/-- ModelLoader.predict_hybrid. -/
def predict_hybrid (L : ModelLoader) (url : String) (text : Option String) :
    String × ℚ :=
  match L.hybrid_model with
  | none => ("Model not available", 0)
  | some m =>
    match hybrid_step L m url text with
    | .ok out => out
    | .error _ => ("Error", 0)

end ModelLoader

/-! ## LLMPhishingAnalyzer (app/utils/llm_analyzer.py)

The Ollama chain and the JSON parser are abstracted into one oracle:
the outcome of chain.invoke followed by `PhishingAnalysisParser.parse`,
i.e. either an exception or a parsed dictionary whose fields may be
missing (the parse result of arbitrary JSON).  Everything downstream of
that dictionary in `analyze_url` is embedded from the source. -/

structure LLMAnalysisResult where
  prediction : String
  confidence : ℚ
  explanation : String
  risk_factors : List String
  recommendations : List String
  deriving Repr, DecidableEq

/-- The dictionary produced by PhishingAnalysisParser.parse: each field
that `analyze_url` reads with .get may be absent. -/
structure ParsedDict where
  prediction : Option String
  confidence : Option ℚ
  explanation : Option String
  risk_factors : Option (List String)
  recommendations : Option (List String)

namespace LLMPhishingAnalyzer

/-- LLMPhishingAnalyzer._fallback_result. -/
def _fallback_result (error_msg : String) : LLMAnalysisResult :=
  ⟨"UNKNOWN", 0,
   "LLM analysis unavailable: " ++ error_msg,
   [],
   ["Use traditional ML analysis", "Check LLM service status"]⟩

/-- LLMPhishingAnalyzer.analyze_url; `llmLoaded` is `self.llm` being
non-None, `chainOutcome` the abstracted chain.invoke + parse. -/
def analyze_url (llmLoaded : Bool) (chainOutcome : Except String ParsedDict) :
    LLMAnalysisResult :=
  match llmLoaded with
  | false => _fallback_result "LLM not available"
  | true =>
    match chainOutcome with
    | .error e => _fallback_result ("Analysis failed: " ++ e)
    | .ok parsed =>
      -- Enforce stricter phishing bias
      let result :=
        if parsed.prediction = some "LEGITIMATE" ∧
            parsed.confidence.getD (1/2) < 9/10 then
          ⟨some "PHISHING", parsed.confidence, parsed.explanation,
           parsed.risk_factors, parsed.recommendations⟩
        else parsed
      ⟨result.prediction.getD "UNKNOWN",
       result.confidence.getD (1/2),
       result.explanation.getD "No explanation available",
       result.risk_factors.getD [],
       result.recommendations.getD []⟩

end LLMPhishingAnalyzer

/-- final_url_analysis, try-branch (app/utils/llm_analyzer.py): combine
the ML prediction for the URL with the LLM result (passed as the value
returned by llm_analyzer.analyze_url, which never raises). -/
def final_url_analysis (L : ModelLoader) (llm_result : LLMAnalysisResult)
    (url : String) : String × ℚ :=
  let mlr := ModelLoader.predict_url L url
  let ml_confidence := mlr.2
  let ml_is_phishing := strLower mlr.1 == "phishing"
  if ml_is_phishing && (strUpper llm_result.prediction == "PHISHING") then
    ("PHISHING", max (9/10) ((ml_confidence + llm_result.confidence) / 2))
  else if ml_is_phishing || (strUpper llm_result.prediction == "PHISHING") then
    ("PHISHING", max (7/10) ((ml_confidence + llm_result.confidence) / 2))
  else
    ("LEGITIMATE", (ml_confidence + llm_result.confidence) / 2)

/-! ## Routers (app/routers/predict.py, app/routers/llm_predict.py) -/

structure HTTPException where
  status_code : ℕ
  detail : String
  deriving Repr, DecidableEq

/-- The except-clause of each /predict handler (predict.py lines 91-93,
114-116, 138-140): any exception escaping the try-block becomes a 500
with a constant detail. -/
def predictRouterCatch (_e : String) : HTTPException :=
  ⟨500, "Internal server error"⟩

/-- The except-clause of each /llm-predict prediction handler
(llm_predict.py lines 144-146, 186-188, 229-231): a 500 whose detail
embeds str(e). -/
def llmRouterCatch (e : String) : HTTPException :=
  ⟨500, "Internal server error: " ++ e⟩

/-- A /predict/{url,text,hybrid} endpoint at its exception boundary:
the handler body either produces a response or raises. -/
def predict_endpoint_boundary {α : Type} (body : Except String α) :
    Except HTTPException α :=
  match body with
  | .ok r => .ok r
  | .error e => .error (predictRouterCatch e)

/-- A /llm-predict/{url,text,hybrid} endpoint at its exception
boundary. -/
def llm_predict_endpoint_boundary {α : Type} (body : Except String α) :
    Except HTTPException α :=
  match body with
  | .ok r => .ok r
  | .error e => .error (llmRouterCatch e)

structure LLMPredictionResponse where
  url : String
  prediction : String
  confidence : ℚ
  explanation : String
  risk_factors : List String
  recommendations : List String
  model_type : String
  llm_model : String
  deriving Repr, DecidableEq

/-- predict_url_llm (llm_predict.py, /llm-predict/url), try-branch:
`available` is llm_analyzer.is_available(), `model_name` its
model_name, and `llm_result` the analyze_url outcome consumed inside
final_url_analysis when the LLM is available. -/
def predict_url_llm (available : Bool) (model_name : String)
    (L : ModelLoader) (llm_result : LLMAnalysisResult) (url : String) :
    LLMPredictionResponse :=
  if available then
    let pc := final_url_analysis L llm_result url
    ⟨url, pc.1, pc.2,
     "Hybrid ML+LLM analysis (ML + " ++ model_name ++ ")",
     [], [], "url", model_name⟩
  else
    let mlr := ModelLoader.predict_url L url
    ⟨url, strUpper mlr.1, mlr.2,
     "ML-only analysis (LLM unavailable)",
     [], [], "url", "ml-only"⟩

/-! ## Database schema (app/db.py) -/

inductive ColType
  | TInteger | TString | TFloat | TBoolean | TDateTime
  deriving Repr, DecidableEq

/-- A SQLAlchemy Column declaration.  `default_now` records
`default=datetime.utcnow`; an Integer primary key is auto-incrementing
by SQLAlchemy default. -/
structure ColumnSpec where
  name : String
  ctype : ColType
  primary_key : Bool := false
  default_now : Bool := false
  nullable : Bool := true
  unique : Bool := false
  deriving Repr, DecidableEq

def PredictionLog.columns : List ColumnSpec :=
  [⟨"id", .TInteger, true, false, true, false⟩,
   ⟨"url", .TString, false, false, true, false⟩,
   ⟨"text", .TString, false, false, true, false⟩,
   ⟨"prediction", .TString, false, false, true, false⟩,
   ⟨"confidence", .TFloat, false, false, true, false⟩,
   ⟨"model_type", .TString, false, false, true, false⟩,
   ⟨"timestamp", .TDateTime, false, true, true, false⟩,
   ⟨"ip_address", .TString, false, false, true, false⟩,
   ⟨"user_agent", .TString, false, false, true, false⟩]

def URLBlacklist.columns : List ColumnSpec :=
  [⟨"id", .TInteger, true, false, true, false⟩,
   ⟨"url", .TString, false, false, true, true⟩,
   ⟨"domain", .TString, false, false, true, false⟩,
   ⟨"is_phishing", .TBoolean, false, false, true, false⟩,
   ⟨"confidence", .TFloat, false, false, true, false⟩,
   ⟨"source", .TString, false, false, true, false⟩,
   ⟨"created_at", .TDateTime, false, true, true, false⟩,
   ⟨"updated_at", .TDateTime, false, true, true, false⟩]

def AnalyticsData.columns : List ColumnSpec :=
  [⟨"id", .TInteger, true, false, true, false⟩,
   ⟨"date", .TDateTime, false, false, true, false⟩,
   ⟨"total_predictions", .TInteger, false, false, true, false⟩,
   ⟨"phishing_count", .TInteger, false, false, true, false⟩,
   ⟨"legitimate_count", .TInteger, false, false, true, false⟩,
   ⟨"avg_confidence", .TFloat, false, false, true, false⟩]

/-! ## Concrete artifacts used to witness the theorems -/

/-- A scaler whose transform is the identity. -/
def idScaler : Scaler := ⟨fun v => .ok v⟩

/-- A classifier that always predicts class 1 with probabilities
[0.3, 0.7]. -/
def demoClassifier : Classifier :=
  ⟨fun _ => .ok 1, fun _ => .ok [3/10, 7/10]⟩

/-- A loader with only the URL artifacts present. -/
def demoLoader : ModelLoader :=
  ⟨some demoClassifier, some idScaler, some ["url_length"],
   none, none, none, none, none, none,
   fun _ => .error "nlp unavailable", fun _ _ => .error "whois unavailable"⟩

/-! ## Helper lemmas -/

theorem splitOnChar_of_not_mem (sep : Char) (cs : List Char)
    (h : cs.contains sep = false) : splitOnChar sep cs = [cs] := by
  induction cs with
  | nil => rfl
  | cons c t ih =>
    simp only [List.contains_cons, Bool.or_eq_false_iff, beq_eq_false_iff_ne] at h
    have ht : t.contains sep = false := h.2
    simp [splitOnChar, ih ht, Ne.symm h.1]

theorem foldl_max_mem (a : ℚ) (l : List ℚ) : l.foldl max a ∈ a :: l := by
  induction l generalizing a with
  | nil => simp [List.foldl]
  | cons b t ih =>
    have h := ih (max a b)
    rcases List.mem_cons.mp h with he | ht
    · show List.foldl max (max a b) t ∈ a :: b :: t
      rw [he]
      rcases max_choice a b with hm | hm <;> rw [hm] <;> simp
    · show List.foldl max (max a b) t ∈ a :: b :: t
      exact List.mem_cons_of_mem _ (List.mem_cons_of_mem _ ht)

theorem le_foldl_max (a : ℚ) (l : List ℚ) :
    ∀ x ∈ a :: l, x ≤ l.foldl max a := by
  induction l generalizing a with
  | nil =>
    intro x hx
    simp at hx
    simp [List.foldl, hx]
  | cons b t ih =>
    intro x hx
    have hbase : max a b ≤ t.foldl max (max a b) :=
      ih (max a b) (max a b) (List.mem_cons_self _ _)
    rcases List.mem_cons.mp hx with rfl | hx'
    · exact le_trans (le_max_left x b) hbase
    · rcases List.mem_cons.mp hx' with rfl | hx''
      · exact le_trans (le_max_right a x) hbase
      · exact ih (max a b) x (List.mem_cons_of_mem _ hx'')

theorem npMax_spec (l : List ℚ) (c : ℚ) (h : npMax l = .ok c) :
    c ∈ l ∧ ∀ x ∈ l, x ≤ c := by
  match l with
  | [] => simp [npMax] at h
  | a :: rest =>
    simp only [npMax, Except.ok.injEq] at h
    subst h
    exact ⟨foldl_max_mem a rest, le_foldl_max a rest⟩

/-! ## Claim theorems -/

/-- C9: URLFeatureExtractor.extract_features is total and for every
input string returns a dictionary with exactly the same fixed 24
feature keys (7 basic, 6 domain, 4 path, 3 query, 4
suspicious-pattern), in insertion order, whether or not the input
parses as a URL. -/
theorem extract_features_key_schema (url : String) :
    (URLFeatureExtractor.extract_features url).map Prod.fst =
      ["url_length", "num_dots", "num_hyphens", "num_underscores",
       "num_slashes", "num_digits", "num_special_chars",
       "domain_length", "num_subdomains", "has_ip", "has_https",
       "tld_length", "suspicious_tld",
       "path_length", "num_directories", "has_file_extension",
       "suspicious_path_keywords",
       "query_length", "num_params", "suspicious_query_keywords",
       "suspicious_keywords", "is_shortened", "has_repeated_chars",
       "has_mixed_case"] ∧
    (URLFeatureExtractor.extract_features url).length = 24 := by
  unfold URLFeatureExtractor.extract_features
  cases h : urlparseChars url.data <;>
    simp [URLFeatureExtractor._extract_basic_features,
          URLFeatureExtractor._extract_domain_features,
          URLFeatureExtractor._extract_path_features,
          URLFeatureExtractor._extract_query_features,
          URLFeatureExtractor._extract_suspicious_features, h]

/-- C4: each per-section URL feature extractor is total and, when URL
parsing raises, returns exactly its fixed feature keys all set to 0.0:
six domain features, four path features, three query features. -/
theorem section_extractors_default_on_parse_failure (url e : String)
    (h : urlparse url = .error e) :
    URLFeatureExtractor._extract_domain_features url.data =
      [("domain_length", 0), ("num_subdomains", 0), ("has_ip", 0),
       ("has_https", 0), ("tld_length", 0), ("suspicious_tld", 0)] ∧
    URLFeatureExtractor._extract_path_features url.data =
      [("path_length", 0), ("num_directories", 0),
       ("has_file_extension", 0), ("suspicious_path_keywords", 0)] ∧
    URLFeatureExtractor._extract_query_features url.data =
      [("query_length", 0), ("num_params", 0),
       ("suspicious_query_keywords", 0)] := by
  unfold urlparse at h
  refine ⟨?_, ?_, ?_⟩ <;>
    simp [URLFeatureExtractor._extract_domain_features,
          URLFeatureExtractor._extract_path_features,
          URLFeatureExtractor._extract_query_features, h]

/-- Witness for C4 at the malformed URL "http://[::1/x" (unbalanced
IPv6 bracket, a ValueError in urllib). -/
theorem section_extractors_default_witness :
    URLFeatureExtractor._extract_domain_features "http://[::1/x".data =
      [("domain_length", 0), ("num_subdomains", 0), ("has_ip", 0),
       ("has_https", 0), ("tld_length", 0), ("suspicious_tld", 0)] ∧
    URLFeatureExtractor._extract_path_features "http://[::1/x".data =
      [("path_length", 0), ("num_directories", 0),
       ("has_file_extension", 0), ("suspicious_path_keywords", 0)] ∧
    URLFeatureExtractor._extract_query_features "http://[::1/x".data =
      [("query_length", 0), ("num_params", 0),
       ("suspicious_query_keywords", 0)] :=
  section_extractors_default_on_parse_failure "http://[::1/x"
    "Invalid IPv6 URL" rfl

/-- C10: on a successful parse, num_subdomains equals the number of
dot-separated labels of the lowercased netloc minus 2, hence is -1
whenever that netloc contains no dot (in particular for the empty
netloc of schemeless URLs); it is not clamped at zero. -/
theorem num_subdomains_value (url : String) (p : ParsedURL)
    (h : urlparse url = .ok p) :
    dictGet (URLFeatureExtractor._extract_domain_features url.data)
        "num_subdomains" 0 =
      ((splitOnChar '.' (lowerChars p.netloc.data)).length : ℚ) - 2 ∧
    ((lowerChars p.netloc.data).contains '.' = false →
      dictGet (URLFeatureExtractor._extract_domain_features url.data)
        "num_subdomains" 0 = -1) := by
  unfold urlparse at h
  have h1 : dictGet (URLFeatureExtractor._extract_domain_features url.data)
      "num_subdomains" 0 =
      ((splitOnChar '.' (lowerChars p.netloc.data)).length : ℚ) - 2 := by
    simp [URLFeatureExtractor._extract_domain_features, h, dictGet,
          List.find?]
  refine ⟨h1, fun hnd => ?_⟩
  rw [h1, splitOnChar_of_not_mem '.' _ hnd]
  norm_num

/-- Witness for C10 at the schemeless input "notaurl", whose netloc is
empty: num_subdomains evaluates to -1. -/
theorem num_subdomains_value_witness :
    dictGet (URLFeatureExtractor._extract_domain_features "notaurl".data)
        "num_subdomains" 0 =
      ((splitOnChar '.'
          (lowerChars (ParsedURL.netloc ⟨"", "", "notaurl", "", ""⟩).data)).length : ℚ)
        - 2 ∧
    ((lowerChars (ParsedURL.netloc ⟨"", "", "notaurl", "", ""⟩).data).contains '.'
        = false →
      dictGet (URLFeatureExtractor._extract_domain_features "notaurl".data)
        "num_subdomains" 0 = -1) :=
  num_subdomains_value "notaurl" ⟨"", "", "notaurl", "", ""⟩ rfl

/-- A successful pipeline run only ever labels "Phishing" or
"Legitimate". -/
theorem pipeline_ok_label (sc : Option Scaler) (m : Classifier)
    (ordered : List ℚ) (out : String × ℚ)
    (h : ModelLoader.pipeline sc m ordered = .ok out) :
    out.1 = "Phishing" ∨ out.1 = "Legitimate" := by
  unfold ModelLoader.pipeline at h
  cases hsc : (match sc with
               | some s => s.transform ordered
               | none => (.ok ordered : Except String (List ℚ))) with
  | error e => simp [hsc] at h
  | ok fv =>
    simp only [hsc] at h
    cases hp : m.predict fv with
    | error e => simp [hp] at h
    | ok pred =>
      simp only [hp] at h
      cases hq : m.predict_proba fv with
      | error e => simp [hq] at h
      | ok proba =>
        simp only [hq] at h
        cases hc : npMax proba with
        | error e => simp [hc] at h
        | ok conf =>
          simp only [hc, Except.ok.injEq] at h
          subst h
          by_cases hone : pred = 1 <;> simp [hone]

/-- C2: with the URL model, scaler and a non-empty stored feature-name
list all loaded and every library call succeeding, predict_url is
exactly: extract the raw feature dict, order it by the stored names
(absent names default to 0.0), scale, predict and predict_proba, and
return the class-1/0 label with the maximum probability entry as
confidence. -/
theorem predict_url_pipeline_spec (L : ModelLoader) (url : String)
    (m : Classifier) (s : Scaler) (names : List String)
    (fv : List ℚ) (pred : ℤ) (proba : List ℚ) (c : ℚ)
    (hm : L.url_model = some m)
    (hs : L.url_scaler = some s)
    (hn : L.url_feature_names = some names)
    (hne : names ≠ [])
    (ht : s.transform (names.map (fun n =>
        dictGet (URLFeatureExtractor.extract_features url) n 0)) = .ok fv)
    (hp : m.predict fv = .ok pred)
    (hq : m.predict_proba fv = .ok proba)
    (hc : npMax proba = .ok c) :
    ModelLoader.predict_url L url =
      ((if pred = 1 then "Phishing" else "Legitimate"), c) ∧
    c ∈ proba ∧ (∀ x ∈ proba, x ≤ c) := by
  have hmax := npMax_spec proba c hc
  refine ⟨?_, hmax.1, hmax.2⟩
  unfold ModelLoader.predict_url ModelLoader.url_step ModelLoader.pipeline
    ModelLoader.orderFeatures
  rw [hm, hs, hn]
  have hnemp : names.isEmpty = false := by
    simpa [List.isEmpty_iff] using hne
  simp [hnemp, ht, hp, hq, hc]

/-- Witness for C2: a loader with identity scaler, a classifier that
returns class 1 with probabilities [0.3, 0.7], and the single stored
feature name "url_length". -/
theorem predict_url_pipeline_spec_witness :
    ModelLoader.predict_url demoLoader "http://a.com" = ("Phishing", 7/10) ∧
    (7/10 : ℚ) ∈ [(3/10 : ℚ), 7/10] ∧
    (∀ x ∈ [(3/10 : ℚ), 7/10], x ≤ 7/10) := by
  have h := predict_url_pipeline_spec demoLoader "http://a.com"
    demoClassifier idScaler ["url_length"] [12] 1 [3/10, 7/10] (7/10)
    rfl rfl rfl (by decide) rfl rfl rfl
    (by simp only [npMax, List.foldl, Except.ok.injEq]
        exact max_eq_right (by norm_num))
  simpa using h

/-- C3: each of the three predictors is total (never raises) and has
exactly two failure outcomes: ("Model not available", 0.0) precisely
when its model object is None, ("Error", 0.0) when its try-block
raises; on success the label is "Phishing" or "Legitimate" and no
other label ever appears. -/
theorem predictors_failure_modes (L : ModelLoader) (url text : String)
    (otext : Option String) :
    ((L.url_model = none →
        ModelLoader.predict_url L url = ("Model not available", 0)) ∧
     (∀ m e, L.url_model = some m → ModelLoader.url_step L m url = .error e →
        ModelLoader.predict_url L url = ("Error", 0)) ∧
     (ModelLoader.predict_url L url = ("Model not available", 0) ∨
      ModelLoader.predict_url L url = ("Error", 0) ∨
      (ModelLoader.predict_url L url).1 = "Phishing" ∨
      (ModelLoader.predict_url L url).1 = "Legitimate")) ∧
    ((L.text_model = none →
        ModelLoader.predict_text L text = ("Model not available", 0)) ∧
     (∀ m e, L.text_model = some m → ModelLoader.text_step L m text = .error e →
        ModelLoader.predict_text L text = ("Error", 0)) ∧
     (ModelLoader.predict_text L text = ("Model not available", 0) ∨
      ModelLoader.predict_text L text = ("Error", 0) ∨
      (ModelLoader.predict_text L text).1 = "Phishing" ∨
      (ModelLoader.predict_text L text).1 = "Legitimate")) ∧
    ((L.hybrid_model = none →
        ModelLoader.predict_hybrid L url otext = ("Model not available", 0)) ∧
     (∀ m e, L.hybrid_model = some m →
        ModelLoader.hybrid_step L m url otext = .error e →
        ModelLoader.predict_hybrid L url otext = ("Error", 0)) ∧
     (ModelLoader.predict_hybrid L url otext = ("Model not available", 0) ∨
      ModelLoader.predict_hybrid L url otext = ("Error", 0) ∨
      (ModelLoader.predict_hybrid L url otext).1 = "Phishing" ∨
      (ModelLoader.predict_hybrid L url otext).1 = "Legitimate")) := by
  refine ⟨⟨?_, ?_, ?_⟩, ⟨?_, ?_, ?_⟩, ⟨?_, ?_, ?_⟩⟩
  · intro h; simp [ModelLoader.predict_url, h]
  · intro m e hm hs; simp [ModelLoader.predict_url, hm, hs]
  · unfold ModelLoader.predict_url
    cases hm : L.url_model with
    | none => simp [hm]
    | some m =>
      cases hs : ModelLoader.url_step L m url with
      | error e => simp [hm, hs]
      | ok out =>
        rcases pipeline_ok_label L.url_scaler m _ out hs with h | h <;>
          simp [hm, hs, h]
  · intro h; simp [ModelLoader.predict_text, h]
  · intro m e hm hs; simp [ModelLoader.predict_text, hm, hs]
  · unfold ModelLoader.predict_text
    cases hm : L.text_model with
    | none => simp [hm]
    | some m =>
      cases hs : ModelLoader.text_step L m text with
      | error e => simp [hm, hs]
      | ok out =>
        have hpipe : ∃ raw, ModelLoader.pipeline L.text_scaler m
            (ModelLoader.orderFeatures L.text_feature_names raw) = .ok out := by
          unfold ModelLoader.text_step at hs
          cases hx : L.nlp_extract text with
          | error e => simp [hx] at hs
          | ok raw => simp only [hx] at hs; exact ⟨raw, hs⟩
        rcases hpipe with ⟨raw, hraw⟩
        rcases pipeline_ok_label L.text_scaler m _ out hraw with h | h <;>
          simp [hm, hs, h]
  · intro h; simp [ModelLoader.predict_hybrid, h]
  · intro m e hm hs; simp [ModelLoader.predict_hybrid, hm, hs]
  · unfold ModelLoader.predict_hybrid
    cases hm : L.hybrid_model with
    | none => simp [hm]
    | some m =>
      cases hs : ModelLoader.hybrid_step L m url otext with
      | error e => simp [hm, hs]
      | ok out =>
        have hpipe : ∃ raw, ModelLoader.pipeline L.hybrid_scaler m
            (ModelLoader.orderFeatures L.hybrid_feature_names raw) = .ok out := by
          unfold ModelLoader.hybrid_step at hs
          cases hx : L.hybrid_extract url otext with
          | error e => simp [hx] at hs
          | ok raw => simp only [hx] at hs; exact ⟨raw, hs⟩
        rcases hpipe with ⟨raw, hraw⟩
        rcases pipeline_ok_label L.hybrid_scaler m _ out hraw with h | h <;>
          simp [hm, hs, h]

/-- Witness for C3: demoLoader has no text model, so predict_text
reports the model as unavailable. -/
theorem predictors_failure_modes_witness :
    ModelLoader.predict_text demoLoader "hello" = ("Model not available", 0) :=
  (predictors_failure_modes demoLoader "http://a.com" "hello" none).2.1.1 rfl

/-- Concrete evaluation of predict_url on demoLoader, used to discharge
witness hypotheses. -/
theorem demoLoader_predict_url_eval :
    ModelLoader.predict_url demoLoader "http://a.com" = ("Phishing", 7/10) := by
  have hmax : max (3/10 : ℚ) (7/10) = 7/10 := max_eq_right (by norm_num)
  simp [ModelLoader.predict_url, ModelLoader.url_step, ModelLoader.pipeline,
        ModelLoader.orderFeatures, demoLoader, demoClassifier, idScaler,
        npMax, hmax]

/-- C1: final_url_analysis combines a successful ML result and a
successful LLM result by: both phishing → ("PHISHING",
max(0.9, mean)); exactly one phishing → ("PHISHING", max(0.7, mean));
neither → ("LEGITIMATE", mean), where mean is the average of the two
confidences. -/
theorem final_url_analysis_confidence_policy (L : ModelLoader)
    (llm : LLMAnalysisResult) (url : String) (mr : String) (mc : ℚ)
    (hml : ModelLoader.predict_url L url = (mr, mc)) :
    (mr = "Phishing" ∧ llm.prediction = "PHISHING" →
      final_url_analysis L llm url =
        ("PHISHING", max (9/10) ((mc + llm.confidence) / 2))) ∧
    (mr = "Phishing" ∧ llm.prediction = "LEGITIMATE" →
      final_url_analysis L llm url =
        ("PHISHING", max (7/10) ((mc + llm.confidence) / 2))) ∧
    (mr = "Legitimate" ∧ llm.prediction = "PHISHING" →
      final_url_analysis L llm url =
        ("PHISHING", max (7/10) ((mc + llm.confidence) / 2))) ∧
    (mr = "Legitimate" ∧ llm.prediction = "LEGITIMATE" →
      final_url_analysis L llm url =
        ("LEGITIMATE", (mc + llm.confidence) / 2)) := by
  have hP : (strLower "Phishing" == "phishing") = true := by decide
  have hL : (strLower "Legitimate" == "phishing") = false := by decide
  have hUP : (strUpper "PHISHING" == "PHISHING") = true := by decide
  have hUL : (strUpper "LEGITIMATE" == "PHISHING") = false := by decide
  refine ⟨?_, ?_, ?_, ?_⟩ <;> rintro ⟨h1, h2⟩ <;> subst h1 <;>
    simp [final_url_analysis, hml, h2, hP, hL, hUP, hUL]

/-- Witness for C1: demoLoader says Phishing with confidence 0.7 and
the LLM agrees with confidence 0.8. -/
theorem final_url_analysis_confidence_policy_witness :
    final_url_analysis demoLoader ⟨"PHISHING", 4/5, "e", [], []⟩ "http://a.com" =
      ("PHISHING", max (9/10) ((7/10 + 4/5) / 2)) :=
  (final_url_analysis_confidence_policy demoLoader ⟨"PHISHING", 4/5, "e", [], []⟩
    "http://a.com" "Phishing" (7/10) demoLoader_predict_url_eval).1 ⟨rfl, rfl⟩

/-- C6: on /llm-predict/url the LLM is optional: when available, the
response carries final_url_analysis's prediction and confidence (and
the reported llm_model is the LLM's name); when unavailable, it
carries predict_url's result with the label uppercased, the
explanation "ML-only analysis (LLM unavailable)" and llm_model
"ml-only". -/
theorem predict_url_llm_fallback_spec (available : Bool)
    (model_name : String) (L : ModelLoader) (llm : LLMAnalysisResult)
    (url : String) :
    (available = true →
      (predict_url_llm available model_name L llm url).prediction =
          (final_url_analysis L llm url).1 ∧
      (predict_url_llm available model_name L llm url).confidence =
          (final_url_analysis L llm url).2 ∧
      (predict_url_llm available model_name L llm url).llm_model =
          model_name) ∧
    (available = false →
      (predict_url_llm available model_name L llm url).prediction =
          strUpper (ModelLoader.predict_url L url).1 ∧
      (predict_url_llm available model_name L llm url).confidence =
          (ModelLoader.predict_url L url).2 ∧
      (predict_url_llm available model_name L llm url).explanation =
          "ML-only analysis (LLM unavailable)" ∧
      (predict_url_llm available model_name L llm url).llm_model =
          "ml-only") := by
  constructor <;> intro h <;> subst h <;> simp [predict_url_llm]

/-- Witness for C6 with the LLM unavailable. -/
theorem predict_url_llm_fallback_spec_witness :
    (predict_url_llm false "llama2" demoLoader ⟨"UNKNOWN", 0, "e", [], []⟩
        "http://a.com").prediction =
      strUpper (ModelLoader.predict_url demoLoader "http://a.com").1 ∧
    (predict_url_llm false "llama2" demoLoader ⟨"UNKNOWN", 0, "e", [], []⟩
        "http://a.com").confidence =
      (ModelLoader.predict_url demoLoader "http://a.com").2 ∧
    (predict_url_llm false "llama2" demoLoader ⟨"UNKNOWN", 0, "e", [], []⟩
        "http://a.com").explanation = "ML-only analysis (LLM unavailable)" ∧
    (predict_url_llm false "llama2" demoLoader ⟨"UNKNOWN", 0, "e", [], []⟩
        "http://a.com").llm_model = "ml-only" :=
  (predict_url_llm_fallback_spec false "llama2" demoLoader
    ⟨"UNKNOWN", 0, "e", [], []⟩ "http://a.com").2 rfl

/-- Evaluation of analyze_url on a successfully parsed result. -/
theorem analyze_url_ok_eq (d : ParsedDict) :
    LLMPhishingAnalyzer.analyze_url true (.ok d) =
      if d.prediction = some "LEGITIMATE" ∧ d.confidence.getD (1/2) < 9/10
      then
        ⟨"PHISHING", d.confidence.getD (1/2),
         d.explanation.getD "No explanation available",
         d.risk_factors.getD [], d.recommendations.getD []⟩
      else
        ⟨d.prediction.getD "UNKNOWN", d.confidence.getD (1/2),
         d.explanation.getD "No explanation available",
         d.risk_factors.getD [], d.recommendations.getD []⟩ := by
  unfold LLMPhishingAnalyzer.analyze_url
  dsimp only
  by_cases hc : d.prediction = some "LEGITIMATE" ∧
      d.confidence.getD (1/2) < 9/10
  · rw [if_pos hc, if_pos hc]
    rfl
  · rw [if_neg hc, if_neg hc]

/-- C8: whenever the LLM chain succeeds, analyze_url never returns
prediction "LEGITIMATE" with confidence below 0.9: any parsed result
labelled LEGITIMATE with confidence < 0.9 is rewritten to PHISHING
first. -/
theorem analyze_url_legitimate_high_confidence (d : ParsedDict)
    (h : (LLMPhishingAnalyzer.analyze_url true (.ok d)).prediction =
      "LEGITIMATE") :
    9/10 ≤ (LLMPhishingAnalyzer.analyze_url true (.ok d)).confidence := by
  rw [analyze_url_ok_eq] at h ⊢
  by_cases hc : d.prediction = some "LEGITIMATE" ∧
      d.confidence.getD (1/2) < 9/10
  · rw [if_pos hc] at h
    dsimp only at h
    exact absurd h (by decide)
  · rw [if_neg hc] at h ⊢
    dsimp only at h ⊢
    cases hd : d.prediction with
    | none => rw [hd] at h; exact absurd h (by decide)
    | some s =>
      rw [hd] at h
      simp only [Option.getD_some] at h
      subst h
      by_contra hlt
      exact hc ⟨hd, lt_of_not_le hlt⟩

/-- Witness for C8: a parsed LEGITIMATE result with confidence 0.95
passes through with its confidence intact. -/
theorem analyze_url_legitimate_high_confidence_witness :
    9/10 ≤ (LLMPhishingAnalyzer.analyze_url true
      (.ok ⟨some "LEGITIMATE", some (19/20), none, none, none⟩)).confidence :=
  analyze_url_legitimate_high_confidence
    ⟨some "LEGITIMATE", some (19/20), none, none, none⟩ (by
      have hcneg : ¬((⟨some "LEGITIMATE", some (19/20), none, none, none⟩ :
          ParsedDict).prediction = some "LEGITIMATE" ∧
          (⟨some "LEGITIMATE", some (19/20), none, none, none⟩ :
          ParsedDict).confidence.getD (1/2) < 9/10) := by
        rintro ⟨-, hlt⟩
        simp only [Option.getD_some] at hlt
        norm_num at hlt
      rw [analyze_url_ok_eq, if_neg hcneg]
      rfl)

/-- C5 counterexample: on the /llm-predict boundary two different
exceptions yield different 500 payloads, so the detail depends on the
specific error, contrary to the claim. -/
theorem llm_boundary_detail_depends_on_error :
    (llm_predict_endpoint_boundary (.error "division by zero") :
        Except HTTPException LLMPredictionResponse) ≠
      llm_predict_endpoint_boundary (.error "KeyError") := by
  simp only [llm_predict_endpoint_boundary, llmRouterCatch, ne_eq,
    Except.error.injEq, HTTPException.mk.injEq]
  intro hcon
  exact absurd hcon.2 (by decide)

/-- C5 amended: every exception escaping a prediction handler becomes
an HTTPException with status 500; the /predict handlers use the
constant detail "Internal server error", while the /llm-predict
handlers append str(e) to the detail, which therefore does depend on
the error.  Successful responses pass through unchanged. -/
theorem endpoint_boundary_status_and_detail (α : Type) (e : String) (r : α) :
    (predict_endpoint_boundary (.error e) : Except HTTPException α) =
        .error ⟨500, "Internal server error"⟩ ∧
    (llm_predict_endpoint_boundary (.error e) : Except HTTPException α) =
        .error ⟨500, "Internal server error: " ++ e⟩ ∧
    (predict_endpoint_boundary (.ok r) : Except HTTPException α) = .ok r ∧
    (llm_predict_endpoint_boundary (.ok r) : Except HTTPException α) =
        .ok r :=
  ⟨rfl, rfl, rfl, rfl⟩

/-- C7 counterexample: AnalyticsData has no DateTime column with a
current-time default; its only DateTime column, date, has no default. -/
theorem analytics_no_timestamp_default :
    ¬ ∃ c ∈ AnalyticsData.columns,
        c.ctype = ColType.TDateTime ∧ c.default_now = true := by decide

/-- C7 amended: all three persisted record types have an
auto-incrementing Integer identity primary key; PredictionLog and
URLBlacklist additionally have a DateTime column defaulting to the
current time, but AnalyticsData does not. -/
theorem persisted_rows_schema :
    (∃ c ∈ PredictionLog.columns,
        c.primary_key = true ∧ c.ctype = ColType.TInteger) ∧
    (∃ c ∈ URLBlacklist.columns,
        c.primary_key = true ∧ c.ctype = ColType.TInteger) ∧
    (∃ c ∈ AnalyticsData.columns,
        c.primary_key = true ∧ c.ctype = ColType.TInteger) ∧
    (∃ c ∈ PredictionLog.columns,
        c.ctype = ColType.TDateTime ∧ c.default_now = true) ∧
    (∃ c ∈ URLBlacklist.columns,
        c.ctype = ColType.TDateTime ∧ c.default_now = true) ∧
    (∀ c ∈ AnalyticsData.columns,
        c.ctype = ColType.TDateTime → c.default_now = false) := by decide

end Phish
